import Mathlib

/-!
Verification of the interactive AWS parameter-collection flow of
function-clarity (cmd/function-clarity/cli/aws/init.go) against its
natural-language specification.

The Go source is shallowly embedded: each prompt helper becomes a pure
Lean function from the consumed read result and the prior field value to
the new field value together with an optional error; the whole
`ReceiveParameters` flow is explicit state passing over a trace that
records the remaining input lines, the prompts printed so far, and the
number of key-pair generation invocations.
-/

namespace FunctionClarity

/-- The Latin-1 portion of Go `unicode.IsSpace`, which is what
`strings.TrimSpace` tests on the ASCII inputs exercised here. -/
def goIsSpace (c : Char) : Bool :=
  c == ' ' || c == '\t' || c == '\n' || c == '\x0b' || c == '\x0c' ||
  c == '\r' || c == '\u0085' || c == '\u00A0'

/-- Character-list core of Go `strings.TrimSpace`: drop whitespace from
both ends. -/
def trimChars (l : List Char) : List Char :=
  ((l.dropWhile goIsSpace).reverse.dropWhile goIsSpace).reverse

/-- Go `strings.TrimSpace`. -/
def goTrimSpace (s : String) : String :=
  ⟨trimChars s.data⟩

/-- Go `strings.TrimSuffix s suf`: remove one trailing occurrence of
`suf` if present, otherwise return `s` unchanged. -/
def goTrimSuffix (s suf : String) : String :=
  if s.data.length ≥ suf.data.length &&
      s.data.drop (s.data.length - suf.data.length) == suf.data then
    ⟨s.data.take (s.data.length - suf.data.length)⟩
  else s

/-- Character-list core of Go `strings.Split s ","`: split around every
comma; the result of splitting the empty list is `[[]]`, matching Go,
where `strings.Split("", ",")` returns a one-element slice holding the
empty string. -/
def splitCommaChars : List Char → List (List Char)
  | [] => [[]]
  | c :: cs =>
    if c = ',' then [] :: splitCommaChars cs
    else
      match splitCommaChars cs with
      | [] => [[c]]
      | h :: tl => (c :: h) :: tl

/-- Go `strings.Split s ","`. -/
def goSplitComma (s : String) : List String :=
  (splitCommaChars s.data).map fun l => ⟨l⟩

/-- Go `strings.ToLower` on the ASCII range used by the yes/no prompt. -/
def goToLower (s : String) : String :=
  ⟨s.data.map Char.toLower⟩

/-- Whether the first character list starts the second. -/
def isPrefixChars : List Char → List Char → Bool
  | [], _ => true
  | _ :: _, [] => false
  | a :: as, b :: bs => a == b && isPrefixChars as bs

/-- Whether the first character list occurs contiguously in the second. -/
def containsChars (needle : List Char) : List Char → Bool
  | [] => isPrefixChars needle []
  | b :: bs => isPrefixChars needle (b :: bs) || containsChars needle bs

/-- Go `strings.Contains`. -/
def goContains (s sub : String) : Bool :=
  containsChars sub.data s.data

/-- One `bufio.Reader.ReadString('\n')` outcome: the data delivered
(including the trailing newline when the read succeeded) and whether the
read succeeded (`ok = false` models a non-nil error with `data` as the
partial input read before the failure). -/
structure ReadResult where
  data : String
  ok : Bool
deriving DecidableEq, Repr

/-- Errors produced by the collector: `errorf msg` models
`fmt.Errorf(msg)`, `readErr` a non-nil error from `ReadString`, and
`genErr` a failure of `generate.GenerateKeyPairCmd`. -/
inductive GoError where
  | errorf (msg : String)
  | readErr
  | genErr
deriving DecidableEq, Repr

/-- The message of the mandatory-parameter error. -/
def compulsoryErrMsg : String := "this is a compulsory parameter"

/-- The error value `ReadString` contributed: `none` when the read
succeeded. -/
def readErrOf (r : ReadResult) : Option GoError :=
  if r.ok = true then none else some GoError.readErr

/-- init.go `inputStringParameter`: trim the trailing newline, reject
empty input when the parameter is mandatory (`em = false`), otherwise
store the (again newline-trimmed) input and return the read error. -/
def inputStringParameter (r : ReadResult) (p : String) (em : Bool) :
    String × Option GoError :=
  let input := goTrimSuffix r.data "\n"
  if em = false ∧ input = "" then (p, some (GoError.errorf compulsoryErrMsg))
  else (goTrimSuffix input "\n", readErrOf r)

/-- init.go `inputStringArrayParameter`: trim the newline and surrounding
whitespace, reject empty input when mandatory, otherwise store the
comma-split, element-wise trimmed input and return the read error. -/
def inputStringArrayParameter (r : ReadResult) (p : List String) (em : Bool) :
    List String × Option GoError :=
  let input := goTrimSpace (goTrimSuffix r.data "\n")
  if em = false ∧ input = "" then (p, some (GoError.errorf compulsoryErrMsg))
  else ((goSplitComma input).map goTrimSpace, readErrOf r)

/-- init.go `inputYesNoParameter`: the mandatory-emptiness check runs on
the newline-trimmed input, then the input is whitespace-trimmed and
lowercased; `y` sets the flag, `n` clears it, anything else leaves it;
the read error is returned. -/
def inputYesNoParameter (r : ReadResult) (p : Bool) (em : Bool) :
    Bool × Option GoError :=
  let input := goTrimSuffix r.data "\n"
  if em = false ∧ input = "" then (p, some (GoError.errorf compulsoryErrMsg))
  else
    let lowered := goToLower (goTrimSpace input)
    (if lowered = "y" then true else if lowered = "n" then false else p,
     readErrOf r)

/-- init.go `inputMultipleChoiceParameter`: return a read error at once;
reject empty input when mandatory; store the mapped value of the key the
input matches, if any; empty optional input stores the empty string;
unmatched non-empty input stores nothing and returns no error. The Go
map is embedded as an association list. -/
def inputMultipleChoiceParameter (r : ReadResult) (p : String)
    (m : List (String × String)) (em : Bool) : String × Option GoError :=
  if r.ok = false then (p, some GoError.readErr)
  else
    let input := goTrimSuffix r.data "\n"
    if em = false ∧ input = "" then (p, some (GoError.errorf compulsoryErrMsg))
    else
      let p1 := m.foldl (fun acc kv => if input = kv.1 then kv.2 else acc) p
      if input = "" then
        if em = false then (p1, some (GoError.errorf compulsoryErrMsg))
        else ("", none)
      else (p1, none)

/-- The post-verification-action menu of init.go line 46. -/
def actionMap : List (String × String) := [("1", "detect"), ("2", "block")]

/-- The configuration record of pkg/init (`AWSInput`), with the three
fields that cmd/function-clarity/cli/aws/init.go additionally reads and
writes (`SnsTopicArn`, `IncludedFuncTagKeys`, `IncludedFuncRegions`).
Defaults are the Go zero values: the record starts empty. -/
structure CloudTrailRec where
  Name : String := ""
deriving DecidableEq, Repr

structure AWSInput where
  AccessKey : String := ""
  SecretKey : String := ""
  Region : String := ""
  Bucket : String := ""
  Action : String := ""
  PublicKey : String := ""
  PrivateKey : String := ""
  CloudTrail : CloudTrailRec := {}
  IsKeyless : Bool := false
  SnsTopicArn : String := ""
  IncludedFuncTagKeys : List String := []
  IncludedFuncRegions : List String := []
deriving DecidableEq, Repr

/-- The client built by `clients.NewAwsClientInit`: it carries the three
credential strings. -/
structure AwsClient where
  accessKey : String
  secretKey : String
  region : String
deriving DecidableEq, Repr

/-- The external validation gateway (pkg/clients AwsClient methods),
treated as an opaque boolean-returning capability. -/
structure Gateway where
  validateCredentials : AwsClient → Bool
  isBucketExist : AwsClient → String → Bool
  isSnsTopicExist : AwsClient → String → Bool
  isCloudTrailExist : AwsClient → String → Bool

/-- Observable state threaded through the flow: remaining stdin reads,
prompts printed so far, and how many times key-pair generation ran. -/
structure Trace where
  reads : List ReadResult
  prompts : List String
  genCount : Nat
deriving DecidableEq, Repr

/-- Consume the next line from stdin; an exhausted stream behaves like a
failed read delivering no data. -/
def takeRead : List ReadResult → ReadResult × List ReadResult
  | [] => (⟨"", false⟩, [])
  | r :: rs => (r, rs)

/-- One `inputStringParameter` call at the flow level: print the prompt,
consume one read, process it. -/
def runInputString (q : String) (p : String) (em : Bool) (t : Trace) :
    String × Trace × Option GoError :=
  let s := inputStringParameter (takeRead t.reads).1 p em
  (s.1, { t with reads := (takeRead t.reads).2, prompts := t.prompts ++ [q] }, s.2)

/-- One `inputStringArrayParameter` call at the flow level. -/
def runInputArray (q : String) (p : List String) (em : Bool) (t : Trace) :
    List String × Trace × Option GoError :=
  let s := inputStringArrayParameter (takeRead t.reads).1 p em
  (s.1, { t with reads := (takeRead t.reads).2, prompts := t.prompts ++ [q] }, s.2)

/-- One `inputYesNoParameter` call at the flow level. -/
def runInputYesNo (q : String) (p : Bool) (em : Bool) (t : Trace) :
    Bool × Trace × Option GoError :=
  let s := inputYesNoParameter (takeRead t.reads).1 p em
  (s.1, { t with reads := (takeRead t.reads).2, prompts := t.prompts ++ [q] }, s.2)

/-- The menu message `inputMultipleChoiceParameter` builds and prints. -/
def multipleChoiceMessage (action : String) (m : List (String × String))
    (em : Bool) : String :=
  let message := m.foldl
    (fun acc kv => acc ++ "(" ++ kv.1 ++ ")" ++ " for " ++ kv.2 ++ "; ")
    ("select " ++ action ++ " : ")
  if em = true then message ++ "leave empty for no " ++ action ++ " to perform: "
  else message

/-- One `inputMultipleChoiceParameter` call at the flow level. -/
def runInputMC (action : String) (p : String) (m : List (String × String))
    (em : Bool) (t : Trace) : String × Trace × Option GoError :=
  let s := inputMultipleChoiceParameter (takeRead t.reads).1 p m em
  (s.1,
   { t with reads := (takeRead t.reads).2,
            prompts := t.prompts ++ [multipleChoiceMessage action m em] },
   s.2)

/-- init.go `receiveAndValidateCredentials`: three mandatory prompts,
then the gateway credential check; on failure the flow gets a
validation error and no client. -/
def receiveAndValidateCredentials (g : Gateway) (inp : AWSInput) (t : Trace) :
    AWSInput × Trace × Except GoError AwsClient :=
  let s1 := runInputString "enter Access Key: " inp.AccessKey false t
  let inp1 := { inp with AccessKey := s1.1 }
  match s1.2.2 with
  | some e => (inp1, s1.2.1, Except.error e)
  | none =>
    let s2 := runInputString "enter Secret Key: " inp1.SecretKey false s1.2.1
    let inp2 := { inp1 with SecretKey := s2.1 }
    match s2.2.2 with
    | some e => (inp2, s2.2.1, Except.error e)
    | none =>
      let s3 := runInputString "enter region: " inp2.Region false s2.2.1
      let inp3 := { inp2 with Region := s3.1 }
      match s3.2.2 with
      | some e => (inp3, s3.2.1, Except.error e)
      | none =>
        let awsClient : AwsClient := ⟨inp3.AccessKey, inp3.SecretKey, inp3.Region⟩
        if g.validateCredentials awsClient = false then
          (inp3, s3.2.1,
           Except.error (GoError.errorf "validation error: credentials aren\x27t valid"))
        else (inp3, s3.2.1, Except.ok awsClient)

/-- init.go `receiveAndValidateBucketName`. -/
def receiveAndValidateBucketName (g : Gateway) (c : AwsClient)
    (inp : AWSInput) (t : Trace) : AWSInput × Trace × Option GoError :=
  let s := runInputString "enter default bucket (you can leave empty and a bucket with name functionclarity will be created): " inp.Bucket true t
  let inp1 := { inp with Bucket := s.1 }
  match s.2.2 with
  | some e => (inp1, s.2.1, some e)
  | none =>
    if inp1.Bucket ≠ "" ∧ g.isBucketExist c inp1.Bucket = false then
      (inp1, s.2.1,
       some (GoError.errorf "validation error: bucket doesn\x27t exist or you don\x27t have permissions"))
    else (inp1, s.2.1, none)

/-- init.go `receiveAndValidateSNSTopicArn`. -/
def receiveAndValidateSNSTopicArn (g : Gateway) (c : AwsClient)
    (inp : AWSInput) (t : Trace) : AWSInput × Trace × Option GoError :=
  let s := runInputString "enter SNS arn if you would like to be notified when signature verification fails, otherwise press enter: " inp.SnsTopicArn true t
  let inp1 := { inp with SnsTopicArn := s.1 }
  match s.2.2 with
  | some e => (inp1, s.2.1, some e)
  | none =>
    if inp1.SnsTopicArn ≠ "" ∧ g.isSnsTopicExist c inp1.SnsTopicArn = false then
      (inp1, s.2.1,
       some (GoError.errorf "validation error: SNS topic doesn\x27t exist or you don\x27t have permissions"))
    else (inp1, s.2.1, none)

/-- init.go `receiveAndValidateCloudTrail`. The error message is the one
the Go source actually uses on a failed trail-existence check, which
speaks about an SNS topic. -/
def receiveAndValidateCloudTrail (g : Gateway) (c : AwsClient)
    (inp : AWSInput) (t : Trace) : AWSInput × Trace × Option GoError :=
  let s := runInputString "is there existing trail in CloudTrail (in the region selected above) which you would like to use? (if no, please press enter): " inp.CloudTrail.Name true t
  let inp1 := { inp with CloudTrail := { Name := s.1 } }
  match s.2.2 with
  | some e => (inp1, s.2.1, some e)
  | none =>
    let trailName := inp1.CloudTrail.Name
    if trailName ≠ "" ∧ g.isCloudTrailExist c trailName = false then
      (inp1, s.2.1,
       some (GoError.errorf "validation error: SNS topic doesn\x27t exist or you don\x27t have permissions"))
    else (inp1, s.2.1, none)

/-- init.go `inputKeyPair`: optional public key path; only when one was
given, a mandatory private key path. -/
def inputKeyPair (inp : AWSInput) (t : Trace) : AWSInput × Trace × Option GoError :=
  let s := runInputString "enter path to custom public key for code signing? (if you want us to generate key pair, please press enter): " inp.PublicKey true t
  let inp1 := { inp with PublicKey := s.1 }
  match s.2.2 with
  | some e => (inp1, s.2.1, some e)
  | none =>
    if inp1.PublicKey ≠ "" then
      let s2 := runInputString "enter path to custom private key for code signing: " inp1.PrivateKey false s.2.1
      ({ inp1 with PrivateKey := s2.1 }, s2.2.1, s2.2.2)
    else (inp1, s.2.1, none)

/-- init.go `digestParameters`: when no public key was provided and the
mode is not keyless, invoke key-pair generation (`genOk` tells whether
the external `generate.GenerateKeyPairCmd` succeeds) and on success set
the two fixed default filenames. -/
def digestParameters (genOk : Bool) (inp : AWSInput) (t : Trace) :
    AWSInput × Trace × Option GoError :=
  if inp.PublicKey = "" ∧ inp.IsKeyless = false then
    let t1 := { t with genCount := t.genCount + 1 }
    if genOk = false then (inp, t1, some GoError.genErr)
    else ({ inp with PublicKey := "cosign.pub", PrivateKey := "cosign.key" }, t1, none)
  else (inp, t, none)

/-- Error-propagating sequencing of flow stages, mirroring the
`if err != nil { return err }` chains of `ReceiveParameters`. -/
def andThen (r : AWSInput × Trace × Option GoError)
    (k : AWSInput → Trace → AWSInput × Trace × Option GoError) :
    AWSInput × Trace × Option GoError :=
  match r.2.2 with
  | some e => (r.1, r.2.1, some e)
  | none => k r.1 r.2.1

/-- The tag-keys prompt of `ReceiveParameters` (init.go line 39). -/
def stageIncludedFuncTagKeys (inp : AWSInput) (t : Trace) :
    AWSInput × Trace × Option GoError :=
  let s := runInputArray "enter tag keys of functions to include in the verification (leave empty to include all): " inp.IncludedFuncTagKeys true t
  ({ inp with IncludedFuncTagKeys := s.1 }, s.2.1, s.2.2)

/-- The regions prompt of `ReceiveParameters` (init.go line 42). -/
def stageIncludedFuncRegions (inp : AWSInput) (t : Trace) :
    AWSInput × Trace × Option GoError :=
  let s := runInputArray "enter the function regions to include in the verification, i.e: us-east-1,us-west-1 (leave empty to include all): " inp.IncludedFuncRegions true t
  ({ inp with IncludedFuncRegions := s.1 }, s.2.1, s.2.2)

/-- The post-verification-action prompt of `ReceiveParameters`
(init.go line 46). -/
def stageAction (inp : AWSInput) (t : Trace) :
    AWSInput × Trace × Option GoError :=
  let s := runInputMC "post verification action" inp.Action actionMap true t
  ({ inp with Action := s.1 }, s.2.1, s.2.2)

/-- The keyless-mode prompt of `ReceiveParameters` (init.go line 58). -/
def stageKeyless (inp : AWSInput) (t : Trace) :
    AWSInput × Trace × Option GoError :=
  let s := runInputYesNo "do you want to work in keyless mode (y/n): " inp.IsKeyless false t
  ({ inp with IsKeyless := s.1 }, s.2.1, s.2.2)

/-- The key-pair prompts, guarded by `if !i.IsKeyless` (init.go line 62). -/
def stageKeyPair (inp : AWSInput) (t : Trace) :
    AWSInput × Trace × Option GoError :=
  if inp.IsKeyless = false then inputKeyPair inp t else (inp, t, none)

/-- Everything `ReceiveParameters` does before its final
`digestParameters` call, in source order. -/
def receiveParametersPrompts (g : Gateway) (inp : AWSInput) (t : Trace) :
    AWSInput × Trace × Option GoError :=
  let c := receiveAndValidateCredentials g inp t
  match c.2.2 with
  | Except.error e => (c.1, c.2.1, some e)
  | Except.ok awsClient =>
    andThen (receiveAndValidateBucketName g awsClient c.1 c.2.1) fun i1 t1 =>
    andThen (stageIncludedFuncTagKeys i1 t1) fun i2 t2 =>
    andThen (stageIncludedFuncRegions i2 t2) fun i3 t3 =>
    andThen (stageAction i3 t3) fun i4 t4 =>
    andThen (receiveAndValidateSNSTopicArn g awsClient i4 t4) fun i5 t5 =>
    andThen (receiveAndValidateCloudTrail g awsClient i5 t5) fun i6 t6 =>
    andThen (stageKeyless i6 t6) fun i7 t7 =>
    stageKeyPair i7 t7

/-- init.go `ReceiveParameters`: the prompt sequence followed by
`digestParameters`, starting from fresh stdin and an empty trace. -/
def ReceiveParameters (g : Gateway) (genOk : Bool) (inp : AWSInput)
    (reads : List ReadResult) : AWSInput × Trace × Option GoError :=
  andThen (receiveParametersPrompts g inp ⟨reads, [], 0⟩) fun i1 t1 =>
  digestParameters genOk i1 t1

/-- A gateway whose every check succeeds. -/
def gwAllTrue : Gateway :=
  ⟨fun _ => true, fun _ _ => true, fun _ _ => true, fun _ _ => true⟩

/-- A gateway that rejects credentials. -/
def gwBadCreds : Gateway :=
  ⟨fun _ => false, fun _ _ => true, fun _ _ => true, fun _ _ => true⟩

/-- A gateway on which the audit-trail existence check fails. -/
def gwNoTrail : Gateway :=
  ⟨fun _ => true, fun _ _ => true, fun _ _ => true, fun _ _ => false⟩

/-- An input script for a full successful run: valid credentials, every
optional prompt left empty, keyless mode declined, no custom key. -/
def fullRunReads : List ReadResult :=
  [⟨"a\n", true⟩, ⟨"s\n", true⟩, ⟨"r\n", true⟩, ⟨"\n", true⟩, ⟨"\n", true⟩,
   ⟨"\n", true⟩, ⟨"\n", true⟩, ⟨"\n", true⟩, ⟨"\n", true⟩, ⟨"n\n", true⟩,
   ⟨"\n", true⟩]


/-- Claim C1 counterexample: an empty line on an optional list prompt
does not store an empty sequence; it stores the one-element sequence
holding the empty string, because Go `strings.Split("", ",")` returns a
one-element slice. -/
theorem optional_list_empty_input_cex :
    (inputStringArrayParameter ⟨"\n", true⟩ ["x"] true).1 = [""] ∧
    ([""] : List String) ≠ [] := by
  decide

/-- Claim C1 (amended): for every optional list prompt, an empty (or
whitespace-only) input line stores the one-element sequence containing
the empty string and returns no error. -/
theorem optional_list_empty_input (p : List String) :
    inputStringArrayParameter ⟨"\n", true⟩ p true = ([""], none) ∧
    inputStringArrayParameter ⟨"   \n", true⟩ p true = ([""], none) := by
  have h1 : goTrimSpace (goTrimSuffix "\n" "\n") = "" := by decide
  have h2 : goTrimSpace (goTrimSuffix "   \n" "\n") = "" := by decide
  have h3 : (goSplitComma "").map goTrimSpace = [""] := by decide
  constructor <;>
    simp [inputStringArrayParameter, h1, h2, h3, readErrOf]

/-- Claim C2: the audit-trail existence check, when it returns false,
produces the validation error whose message names the SNS topic, not
the audit trail — evaluated on a concrete run in which the operator
enters the trail name `mytrail` and the gateway reports it missing. -/
theorem trail_error_names_sns_topic :
    (receiveAndValidateCloudTrail gwNoTrail ⟨"a", "s", "r"⟩ {}
        ⟨[⟨"mytrail\n", true⟩], [], 0⟩).2.2 =
      some (GoError.errorf
        "validation error: SNS topic doesn\x27t exist or you don\x27t have permissions") ∧
    goContains
      "validation error: SNS topic doesn\x27t exist or you don\x27t have permissions"
      "trail" = false := by
  decide

/-- Claim C5: the optional post-verification-action menu
`{1 : detect, 2 : block}` stores `detect` on input `1`, stores the empty
string on empty input, and on the unmatched non-empty input `9` leaves
the field at its prior value and returns no error. -/
theorem action_choice_behavior (p : String) :
    inputMultipleChoiceParameter ⟨"1\n", true⟩ p actionMap true = ("detect", none) ∧
    inputMultipleChoiceParameter ⟨"\n", true⟩ p actionMap true = ("", none) ∧
    inputMultipleChoiceParameter ⟨"9\n", true⟩ p actionMap true = (p, none) := by
  have h1 : goTrimSuffix "1\n" "\n" = "1" := by decide
  have h2 : goTrimSuffix "\n" "\n" = "" := by decide
  have h3 : goTrimSuffix "9\n" "\n" = "9" := by decide
  refine ⟨?_, ?_, ?_⟩ <;>
    simp [inputMultipleChoiceParameter, actionMap, h1, h2, h3]

/-- Claim C6: every mandatory prompt — the plain string prompts for
access key, secret key, region and private key, and a multiple-choice
prompt with the mandatory flag — answers an exactly-empty input line
with the compulsory-parameter error and leaves the target field
unmutated. -/
theorem mandatory_empty_line_rejected (ps pk : String) (m : List (String × String)) :
    inputStringParameter ⟨"\n", true⟩ ps false =
      (ps, some (GoError.errorf compulsoryErrMsg)) ∧
    inputMultipleChoiceParameter ⟨"\n", true⟩ pk m false =
      (pk, some (GoError.errorf compulsoryErrMsg)) := by
  have h : goTrimSuffix "\n" "\n" = "" := by decide
  constructor <;>
    simp [inputStringParameter, inputMultipleChoiceParameter, h]

/-- Claim C7: the yes/no prompt sets the flag true on `Y`
(case-insensitively, after trimming), false on `n`, and leaves the
prior value on any other non-empty input, without error. -/
theorem yes_no_behavior (p : Bool) :
    inputYesNoParameter ⟨"Y\n", true⟩ p false = (true, none) ∧
    inputYesNoParameter ⟨"n\n", true⟩ p false = (false, none) ∧
    inputYesNoParameter ⟨" y \n", true⟩ p false = (true, none) ∧
    inputYesNoParameter ⟨"maybe\n", true⟩ p false = (p, none) := by
  have h1 : goToLower (goTrimSpace (goTrimSuffix "Y\n" "\n")) = "y" := by decide
  have h2 : goToLower (goTrimSpace (goTrimSuffix "n\n" "\n")) = "n" := by decide
  have h3 : goToLower (goTrimSpace (goTrimSuffix " y \n" "\n")) = "y" := by decide
  have h4 : goToLower (goTrimSpace (goTrimSuffix "maybe\n" "\n")) = "maybe" := by decide
  have n1 : goTrimSuffix "Y\n" "\n" ≠ "" := by decide
  have n2 : goTrimSuffix "n\n" "\n" ≠ "" := by decide
  have n3 : goTrimSuffix " y \n" "\n" ≠ "" := by decide
  have n4 : goTrimSuffix "maybe\n" "\n" ≠ "" := by decide
  refine ⟨?_, ?_, ?_, ?_⟩ <;>
    simp [inputYesNoParameter, readErrOf, h1, h2, h3, h4, n1, n2, n3, n4]

/-- Claim C9 counterexample: a failing read that delivered the non-empty
partial input `maybe` does not mutate the boolean field of
`inputYesNoParameter` — the field keeps its prior value (shown for both
priors) while the read error is returned. -/
theorem read_error_yes_no_unchanged_cex :
    inputYesNoParameter ⟨"maybe", false⟩ true false = (true, some GoError.readErr) ∧
    inputYesNoParameter ⟨"maybe", false⟩ false false = (false, some GoError.readErr) := by
  decide

/-- Claim C9 (amended): in `inputStringParameter`,
`inputStringArrayParameter` and `inputYesNoParameter` a read failure is
surfaced only after the target field has been processed exactly as on a
successful read of the same data — in particular `inputStringParameter`
overwrites the field with the newline-trimmed partial input — and the
read error is returned together with that processing (no atomicity);
for `inputYesNoParameter` the processing mutates the field only when
the partial input parses as yes or no. -/
theorem read_error_after_processing (data ps : String) (pl : List String)
    (pb em : Bool)
    (h1 : goTrimSuffix data "\n" ≠ "")
    (h2 : goTrimSpace (goTrimSuffix data "\n") ≠ "") :
    inputStringParameter ⟨data, false⟩ ps em =
      (goTrimSuffix (goTrimSuffix data "\n") "\n", some GoError.readErr) ∧
    (inputStringArrayParameter ⟨data, false⟩ pl em).1 =
      (inputStringArrayParameter ⟨data, true⟩ pl em).1 ∧
    (inputStringArrayParameter ⟨data, false⟩ pl em).2 = some GoError.readErr ∧
    (inputYesNoParameter ⟨data, false⟩ pb em).1 =
      (inputYesNoParameter ⟨data, true⟩ pb em).1 ∧
    (inputYesNoParameter ⟨data, false⟩ pb em).2 = some GoError.readErr := by
  refine ⟨?_, ?_, ?_, ?_, ?_⟩ <;>
    simp [inputStringParameter, inputStringArrayParameter, inputYesNoParameter,
      readErrOf, h1, h2]

/-- Claim C9 witness: the amended statement at the concrete failing read
`abc`. -/
theorem read_error_after_processing_witness :
    inputStringParameter ⟨"abc", false⟩ "old" true =
      (goTrimSuffix (goTrimSuffix "abc" "\n") "\n", some GoError.readErr) ∧
    (inputStringArrayParameter ⟨"abc", false⟩ ["x"] true).1 =
      (inputStringArrayParameter ⟨"abc", true⟩ ["x"] true).1 ∧
    (inputStringArrayParameter ⟨"abc", false⟩ ["x"] true).2 = some GoError.readErr ∧
    (inputYesNoParameter ⟨"abc", false⟩ true true).1 =
      (inputYesNoParameter ⟨"abc", true⟩ true true).1 ∧
    (inputYesNoParameter ⟨"abc", false⟩ true true).2 = some GoError.readErr :=
  read_error_after_processing "abc" "old" ["x"] true true (by decide) (by decide)

/-- Claim C10: in `inputYesNoParameter` the mandatory-emptiness check
precedes trimming, so on the mandatory keyless prompt a whitespace-only
line passes the check and leaves the flag at its prior value with no
error; with a successful read, the mandatory flag produces an error
exactly when the line (after removing the newline) is exactly empty. -/
theorem keyless_mandatory_check_before_trim (p : Bool) (data : String) :
    inputYesNoParameter ⟨"   \n", true⟩ p false = (p, none) ∧
    ((inputYesNoParameter ⟨data, true⟩ p false).2.isSome ↔
      goTrimSuffix data "\n" = "") := by
  have hw : goToLower (goTrimSpace (goTrimSuffix "   \n" "\n")) = "" := by decide
  have nw : goTrimSuffix "   \n" "\n" ≠ "" := by decide
  constructor
  · simp [inputYesNoParameter, readErrOf, hw, nw]
  · by_cases h : goTrimSuffix data "\n" = "" <;>
      simp [inputYesNoParameter, readErrOf, h]

/-- The head a `dropWhile` leaves fails the predicate. -/
theorem qhead_dropWhile (q : Char → Bool) (l : List Char) (c : Char)
    (h : (l.dropWhile q).head? = some c) : q c = false := by
  induction l with
  | nil => simp at h
  | cons x xs ih =>
    by_cases hx : q x
    · rw [List.dropWhile_cons_of_pos hx] at h
      exact ih h
    · rw [List.dropWhile_cons_of_neg hx] at h
      simp only [List.head?_cons, Option.some.injEq] at h
      subst h
      simp only [Bool.not_eq_true] at hx
      exact hx

/-- `dropWhile` keeps the last element when its result is non-empty. -/
theorem getLast?_dropWhile (q : Char → Bool) (l : List Char) (c : Char)
    (h : (l.dropWhile q).getLast? = some c) : l.getLast? = some c := by
  induction l with
  | nil => simp at h
  | cons x xs ih =>
    by_cases hx : q x
    · rw [List.dropWhile_cons_of_pos hx] at h
      have hxs := ih h
      cases xs with
      | nil => simp at hxs
      | cons y ys => rw [List.getLast?_cons_cons]; exact hxs
    · rwa [List.dropWhile_cons_of_neg hx] at h

/-- A list whose head fails the predicate is untouched by `dropWhile`. -/
theorem dropWhile_eq_self_of_head (q : Char → Bool) (l : List Char)
    (h : ∀ c, l.head? = some c → q c = false) : l.dropWhile q = l := by
  cases l with
  | nil => rfl
  | cons x xs =>
    have hx := h x rfl
    rw [List.dropWhile_cons_of_neg (by simp [hx])]

/-- Trimming both ends of a character list is idempotent. -/
theorem trimChars_idem (l : List Char) : trimChars (trimChars l) = trimChars l := by
  have hXr : (trimChars l).dropWhile goIsSpace = trimChars l := by
    apply dropWhile_eq_self_of_head
    intro c hc
    rw [trimChars, List.head?_reverse] at hc
    have hc2 := getLast?_dropWhile goIsSpace _ c hc
    rw [List.getLast?_reverse] at hc2
    exact qhead_dropWhile _ _ _ hc2
  have hX2 : ((l.dropWhile goIsSpace).reverse.dropWhile goIsSpace).dropWhile goIsSpace
      = (l.dropWhile goIsSpace).reverse.dropWhile goIsSpace := by
    apply dropWhile_eq_self_of_head
    intro c hc
    exact qhead_dropWhile _ _ _ hc
  calc trimChars (trimChars l)
      = (((trimChars l).dropWhile goIsSpace).reverse.dropWhile goIsSpace).reverse := rfl
    _ = ((trimChars l).reverse.dropWhile goIsSpace).reverse := by rw [hXr]
    _ = (((l.dropWhile goIsSpace).reverse.dropWhile goIsSpace).reverse.reverse.dropWhile
          goIsSpace).reverse := rfl
    _ = (((l.dropWhile goIsSpace).reverse.dropWhile goIsSpace).dropWhile goIsSpace).reverse := by
          rw [List.reverse_reverse]
    _ = ((l.dropWhile goIsSpace).reverse.dropWhile goIsSpace).reverse := by rw [hX2]
    _ = trimChars l := rfl

/-- Go `strings.TrimSpace` is idempotent. -/
theorem goTrimSpace_idem (s : String) : goTrimSpace (goTrimSpace s) = goTrimSpace s := by
  show (⟨trimChars (trimChars s.data)⟩ : String) = ⟨trimChars s.data⟩
  rw [trimChars_idem]

/-- Claim C8: on an optional list prompt the line `a, b ,c` is split on
commas and each element trimmed, storing exactly `[a, b, c]`; and in
general every element of the stored sequence carries no surrounding
whitespace (trimming it again changes nothing). -/
theorem list_elements_trimmed (p : List String) (r : ReadResult) :
    (inputStringArrayParameter ⟨"a, b ,c\n", true⟩ p true).1 = ["a", "b", "c"] ∧
    ∀ s, s ∈ (inputStringArrayParameter r p true).1 → goTrimSpace s = s := by
  constructor
  · have h : goTrimSpace (goTrimSuffix "a, b ,c\n" "\n") = "a, b ,c" := by decide
    have h2 : (goSplitComma "a, b ,c").map goTrimSpace = ["a", "b", "c"] := by decide
    simp [inputStringArrayParameter, h, h2]
  · intro s hs
    simp [inputStringArrayParameter, List.mem_map] at hs
    obtain ⟨a, _, ha⟩ := hs
    rw [← ha]
    exact goTrimSpace_idem a

/-- Claim C8 witness: the split of `a, b ,c` and the trimmedness of its
middle element. -/
theorem list_elements_trimmed_witness :
    (inputStringArrayParameter ⟨"a, b ,c\n", true⟩ [] true).1 = ["a", "b", "c"] ∧
    goTrimSpace "b" = "b" :=
  ⟨(list_elements_trimmed [] ⟨"", true⟩).1,
   (list_elements_trimmed [] ⟨"a, b ,c\n", true⟩).2 "b" (by decide)⟩

/-- No prompt helper touches the generation counter. -/
theorem genCount_runInputString (q p : String) (em : Bool) (t : Trace) :
    ((runInputString q p em t).2.1).genCount = t.genCount := rfl

theorem genCount_credentials (g : Gateway) (inp : AWSInput) (t : Trace) :
    ((receiveAndValidateCredentials g inp t).2.1).genCount = t.genCount := by
  simp only [receiveAndValidateCredentials]
  repeat' split
  all_goals rfl

theorem genCount_bucket (g : Gateway) (c : AwsClient) (inp : AWSInput) (t : Trace) :
    ((receiveAndValidateBucketName g c inp t).2.1).genCount = t.genCount := by
  simp only [receiveAndValidateBucketName]
  repeat' split
  all_goals rfl

theorem genCount_sns (g : Gateway) (c : AwsClient) (inp : AWSInput) (t : Trace) :
    ((receiveAndValidateSNSTopicArn g c inp t).2.1).genCount = t.genCount := by
  simp only [receiveAndValidateSNSTopicArn]
  repeat' split
  all_goals rfl

theorem genCount_trail (g : Gateway) (c : AwsClient) (inp : AWSInput) (t : Trace) :
    ((receiveAndValidateCloudTrail g c inp t).2.1).genCount = t.genCount := by
  simp only [receiveAndValidateCloudTrail]
  repeat' split
  all_goals rfl

theorem genCount_inputKeyPair (inp : AWSInput) (t : Trace) :
    ((inputKeyPair inp t).2.1).genCount = t.genCount := by
  simp only [inputKeyPair]
  repeat' split
  all_goals rfl

theorem genCount_stageTagKeys (inp : AWSInput) (t : Trace) :
    ((stageIncludedFuncTagKeys inp t).2.1).genCount = t.genCount := rfl

theorem genCount_stageRegions (inp : AWSInput) (t : Trace) :
    ((stageIncludedFuncRegions inp t).2.1).genCount = t.genCount := rfl

theorem genCount_stageAction (inp : AWSInput) (t : Trace) :
    ((stageAction inp t).2.1).genCount = t.genCount := rfl

theorem genCount_stageKeyless (inp : AWSInput) (t : Trace) :
    ((stageKeyless inp t).2.1).genCount = t.genCount := rfl

theorem genCount_stageKeyPair (inp : AWSInput) (t : Trace) :
    ((stageKeyPair inp t).2.1).genCount = t.genCount := by
  simp only [stageKeyPair]
  split
  · exact genCount_inputKeyPair inp t
  · rfl

/-- `andThen` preserves a generation-counter bound when both sides do. -/
theorem andThen_genCount (r : AWSInput × Trace × Option GoError)
    (k : AWSInput → Trace → AWSInput × Trace × Option GoError) (n : Nat)
    (hr : (r.2.1).genCount = n)
    (hk : ∀ i t, ((k i t).2.1).genCount = t.genCount) :
    ((andThen r k).2.1).genCount = n := by
  unfold andThen
  split
  · exact hr
  · rw [hk]
    exact hr

/-- The prompt sequence never invokes key-pair generation. -/
theorem genCount_prompts (g : Gateway) (inp : AWSInput) (t : Trace) :
    ((receiveParametersPrompts g inp t).2.1).genCount = t.genCount := by
  simp only [receiveParametersPrompts]
  split
  · exact genCount_credentials g inp t
  · refine andThen_genCount _ _ _ ?_ ?_
    · rw [genCount_bucket]
      exact genCount_credentials g inp t
    · intro i1 t1
      refine andThen_genCount _ _ _ (genCount_stageTagKeys i1 t1) ?_
      intro i2 t2
      refine andThen_genCount _ _ _ (genCount_stageRegions i2 t2) ?_
      intro i3 t3
      refine andThen_genCount _ _ _ (genCount_stageAction i3 t3) ?_
      intro i4 t4
      refine andThen_genCount _ _ _ (genCount_sns _ _ i4 t4) ?_
      intro i5 t5
      refine andThen_genCount _ _ _ (genCount_trail _ _ i5 t5) ?_
      intro i6 t6
      refine andThen_genCount _ _ _ (genCount_stageKeyless i6 t6) ?_
      intro i7 t7
      exact genCount_stageKeyPair i7 t7

/-- When no public key was collected and the mode is not keyless,
`digestParameters` invokes generation exactly once, and on success sets
the two fixed filenames. -/
theorem digest_generates (genOk : Bool) (inp : AWSInput) (t : Trace)
    (hpk : inp.PublicKey = "") (hkl : inp.IsKeyless = false) :
    ((digestParameters genOk inp t).2.1).genCount = t.genCount + 1 ∧
    (genOk = true → digestParameters genOk inp t =
      ({ inp with PublicKey := "cosign.pub", PrivateKey := "cosign.key" },
       { t with genCount := t.genCount + 1 }, none)) := by
  rw [digestParameters, if_pos ⟨hpk, hkl⟩]
  constructor
  · cases genOk <;> simp
  · intro hg
    subst hg
    simp

/-- A successful `digestParameters` in non-keyless mode leaves a
non-empty public key. -/
theorem digest_success_pubkey (genOk : Bool) (inp : AWSInput) (t : Trace)
    (h : (digestParameters genOk inp t).2.2 = none)
    (hk : (digestParameters genOk inp t).1.IsKeyless = false) :
    (digestParameters genOk inp t).1.PublicKey ≠ "" := by
  by_cases hc : inp.PublicKey = "" ∧ inp.IsKeyless = false
  · cases genOk
    · exfalso
      rw [digestParameters, if_pos hc] at h
      simp at h
    · rw [digestParameters, if_pos hc]
      simp
  · rw [digestParameters, if_neg hc] at hk ⊢
    simp only at hk ⊢
    intro hpk
    exact hc ⟨hpk, hk⟩

/-- Claim C3: in a run whose prompt phase succeeds with keyless mode off
and no public key collected, key-pair generation is invoked exactly
once, and if it succeeds the record ends with the fixed filenames
`cosign.pub` and `cosign.key`; moreover, in every successfully returned
record, keyless mode off implies a non-empty public key. -/
theorem keygen_once_on_missing_key (g : Gateway) (genOk : Bool)
    (inp0 : AWSInput) (reads : List ReadResult)
    (hok : (receiveParametersPrompts g inp0 ⟨reads, [], 0⟩).2.2 = none)
    (hkl : (receiveParametersPrompts g inp0 ⟨reads, [], 0⟩).1.IsKeyless = false)
    (hpk : (receiveParametersPrompts g inp0 ⟨reads, [], 0⟩).1.PublicKey = "") :
    ((ReceiveParameters g genOk inp0 reads).2.1).genCount = 1 ∧
    ((ReceiveParameters g genOk inp0 reads).2.2 = none →
      (ReceiveParameters g genOk inp0 reads).1.PublicKey = "cosign.pub" ∧
      (ReceiveParameters g genOk inp0 reads).1.PrivateKey = "cosign.key") ∧
    (∀ (g2 : Gateway) (genOk2 : Bool) (i2 : AWSInput) (rs2 : List ReadResult),
      (ReceiveParameters g2 genOk2 i2 rs2).2.2 = none →
      (ReceiveParameters g2 genOk2 i2 rs2).1.IsKeyless = false →
      (ReceiveParameters g2 genOk2 i2 rs2).1.PublicKey ≠ "") := by
  have hred : ReceiveParameters g genOk inp0 reads =
      digestParameters genOk (receiveParametersPrompts g inp0 ⟨reads, [], 0⟩).1
        (receiveParametersPrompts g inp0 ⟨reads, [], 0⟩).2.1 := by
    rw [ReceiveParameters, andThen, hok]
  have hgc0 : ((receiveParametersPrompts g inp0 ⟨reads, [], 0⟩).2.1).genCount = 0 :=
    genCount_prompts g inp0 ⟨reads, [], 0⟩
  obtain ⟨hd1, hd2⟩ := digest_generates genOk _ _ hpk hkl
  refine ⟨?_, ?_, ?_⟩
  · rw [hred, hd1, hgc0]
  · intro hsucc
    rw [hred] at hsucc ⊢
    cases genOk
    · exfalso
      rw [digestParameters, if_pos ⟨hpk, hkl⟩] at hsucc
      simp at hsucc
    · rw [hd2 rfl]
      simp
  · intro g2 genOk2 i2 rs2 hs hk
    cases hP : (receiveParametersPrompts g2 i2 ⟨rs2, [], 0⟩).2.2 with
    | some e =>
      rw [ReceiveParameters, andThen, hP] at hs
      simp at hs
    | none =>
      have hred2 : ReceiveParameters g2 genOk2 i2 rs2 =
          digestParameters genOk2 (receiveParametersPrompts g2 i2 ⟨rs2, [], 0⟩).1
            (receiveParametersPrompts g2 i2 ⟨rs2, [], 0⟩).2.1 := by
        rw [ReceiveParameters, andThen, hP]
      rw [hred2] at hs hk ⊢
      exact digest_success_pubkey _ _ _ hs hk

/-- Claim C3 witness: the full successful run on `fullRunReads` with
keyless mode declined and no custom key generates exactly once and sets
both default filenames. -/
theorem keygen_once_on_missing_key_witness :
    ((ReceiveParameters gwAllTrue true {} fullRunReads).2.1).genCount = 1 ∧
    (ReceiveParameters gwAllTrue true {} fullRunReads).1.PublicKey = "cosign.pub" ∧
    (ReceiveParameters gwAllTrue true {} fullRunReads).1.PrivateKey = "cosign.key" := by
  have h := keygen_once_on_missing_key gwAllTrue true {} fullRunReads
    (by decide) (by decide) (by decide)
  exact ⟨h.1, (h.2.1 (by decide)).1, (h.2.1 (by decide)).2⟩

/-- Evaluation of the credential phase when all three reads succeed with
non-empty lines and the gateway rejects the credentials. -/
theorem credentials_invalid_eval (g : Gateway) (inp : AWSInput)
    (pr : List String) (gc : Nat) (r1 r2 r3 : ReadResult) (rest : List ReadResult)
    (h1 : r1.ok = true) (h2 : r2.ok = true) (h3 : r3.ok = true)
    (n1 : goTrimSuffix r1.data "\n" ≠ "")
    (n2 : goTrimSuffix r2.data "\n" ≠ "")
    (n3 : goTrimSuffix r3.data "\n" ≠ "")
    (hval : g.validateCredentials
        ⟨goTrimSuffix (goTrimSuffix r1.data "\n") "\n",
         goTrimSuffix (goTrimSuffix r2.data "\n") "\n",
         goTrimSuffix (goTrimSuffix r3.data "\n") "\n"⟩ = false) :
    receiveAndValidateCredentials g inp ⟨r1 :: r2 :: r3 :: rest, pr, gc⟩ =
      ({ inp with
          AccessKey := goTrimSuffix (goTrimSuffix r1.data "\n") "\n",
          SecretKey := goTrimSuffix (goTrimSuffix r2.data "\n") "\n",
          Region := goTrimSuffix (goTrimSuffix r3.data "\n") "\n" },
       ⟨rest, pr ++ ["enter Access Key: ", "enter Secret Key: ", "enter region: "], gc⟩,
       Except.error (GoError.errorf "validation error: credentials aren\x27t valid")) := by
  simp [receiveAndValidateCredentials, runInputString, inputStringParameter,
    takeRead, readErrOf, h1, h2, h3, n1, n2, n3, hval]

/-- Claim C4: when the gateway rejects the credentials, the run stops
right after the region prompt with the credentials validation error:
only the three credential prompts were issued, no further input was
consumed, key generation never ran, and every field after `Region` is
left exactly as it started. -/
theorem invalid_credentials_fail_fast (g : Gateway) (genOk : Bool)
    (inp0 : AWSInput) (r1 r2 r3 : ReadResult) (rest : List ReadResult)
    (h1 : r1.ok = true) (h2 : r2.ok = true) (h3 : r3.ok = true)
    (n1 : goTrimSuffix r1.data "\n" ≠ "")
    (n2 : goTrimSuffix r2.data "\n" ≠ "")
    (n3 : goTrimSuffix r3.data "\n" ≠ "")
    (hval : g.validateCredentials
        ⟨goTrimSuffix (goTrimSuffix r1.data "\n") "\n",
         goTrimSuffix (goTrimSuffix r2.data "\n") "\n",
         goTrimSuffix (goTrimSuffix r3.data "\n") "\n"⟩ = false) :
    (ReceiveParameters g genOk inp0 (r1 :: r2 :: r3 :: rest)).2.2 =
      some (GoError.errorf "validation error: credentials aren\x27t valid") ∧
    (ReceiveParameters g genOk inp0 (r1 :: r2 :: r3 :: rest)).2.1.prompts =
      ["enter Access Key: ", "enter Secret Key: ", "enter region: "] ∧
    (ReceiveParameters g genOk inp0 (r1 :: r2 :: r3 :: rest)).2.1.reads = rest ∧
    (ReceiveParameters g genOk inp0 (r1 :: r2 :: r3 :: rest)).2.1.genCount = 0 ∧
    (ReceiveParameters g genOk inp0 (r1 :: r2 :: r3 :: rest)).1.Bucket = inp0.Bucket ∧
    (ReceiveParameters g genOk inp0 (r1 :: r2 :: r3 :: rest)).1.IncludedFuncTagKeys =
      inp0.IncludedFuncTagKeys ∧
    (ReceiveParameters g genOk inp0 (r1 :: r2 :: r3 :: rest)).1.IncludedFuncRegions =
      inp0.IncludedFuncRegions ∧
    (ReceiveParameters g genOk inp0 (r1 :: r2 :: r3 :: rest)).1.Action = inp0.Action ∧
    (ReceiveParameters g genOk inp0 (r1 :: r2 :: r3 :: rest)).1.SnsTopicArn =
      inp0.SnsTopicArn ∧
    (ReceiveParameters g genOk inp0 (r1 :: r2 :: r3 :: rest)).1.CloudTrail =
      inp0.CloudTrail ∧
    (ReceiveParameters g genOk inp0 (r1 :: r2 :: r3 :: rest)).1.IsKeyless =
      inp0.IsKeyless ∧
    (ReceiveParameters g genOk inp0 (r1 :: r2 :: r3 :: rest)).1.PublicKey =
      inp0.PublicKey ∧
    (ReceiveParameters g genOk inp0 (r1 :: r2 :: r3 :: rest)).1.PrivateKey =
      inp0.PrivateKey := by
  have hc := credentials_invalid_eval g inp0 [] 0 r1 r2 r3 rest
    h1 h2 h3 n1 n2 n3 hval
  have hrun : ReceiveParameters g genOk inp0 (r1 :: r2 :: r3 :: rest) =
      ({ inp0 with
          AccessKey := goTrimSuffix (goTrimSuffix r1.data "\n") "\n",
          SecretKey := goTrimSuffix (goTrimSuffix r2.data "\n") "\n",
          Region := goTrimSuffix (goTrimSuffix r3.data "\n") "\n" },
       ⟨rest, ["enter Access Key: ", "enter Secret Key: ", "enter region: "], 0⟩,
       some (GoError.errorf "validation error: credentials aren\x27t valid")) := by
    rw [ReceiveParameters, receiveParametersPrompts, hc]
    simp [andThen]
  rw [hrun]
  simp

/-- Claim C4 witness: a concrete run against a gateway that rejects the
credentials. -/
theorem invalid_credentials_fail_fast_witness :
    (ReceiveParameters gwBadCreds true {} [⟨"a\n", true⟩, ⟨"s\n", true⟩, ⟨"r\n", true⟩]).2.2 =
      some (GoError.errorf "validation error: credentials aren\x27t valid") ∧
    (ReceiveParameters gwBadCreds true {} [⟨"a\n", true⟩, ⟨"s\n", true⟩, ⟨"r\n", true⟩]).2.1.prompts =
      ["enter Access Key: ", "enter Secret Key: ", "enter region: "] ∧
    (ReceiveParameters gwBadCreds true {} [⟨"a\n", true⟩, ⟨"s\n", true⟩, ⟨"r\n", true⟩]).2.1.reads = [] ∧
    (ReceiveParameters gwBadCreds true {} [⟨"a\n", true⟩, ⟨"s\n", true⟩, ⟨"r\n", true⟩]).2.1.genCount = 0 ∧
    (ReceiveParameters gwBadCreds true {} [⟨"a\n", true⟩, ⟨"s\n", true⟩, ⟨"r\n", true⟩]).1.Bucket =
      ({} : AWSInput).Bucket ∧
    (ReceiveParameters gwBadCreds true {} [⟨"a\n", true⟩, ⟨"s\n", true⟩, ⟨"r\n", true⟩]).1.IncludedFuncTagKeys =
      ({} : AWSInput).IncludedFuncTagKeys ∧
    (ReceiveParameters gwBadCreds true {} [⟨"a\n", true⟩, ⟨"s\n", true⟩, ⟨"r\n", true⟩]).1.IncludedFuncRegions =
      ({} : AWSInput).IncludedFuncRegions ∧
    (ReceiveParameters gwBadCreds true {} [⟨"a\n", true⟩, ⟨"s\n", true⟩, ⟨"r\n", true⟩]).1.Action =
      ({} : AWSInput).Action ∧
    (ReceiveParameters gwBadCreds true {} [⟨"a\n", true⟩, ⟨"s\n", true⟩, ⟨"r\n", true⟩]).1.SnsTopicArn =
      ({} : AWSInput).SnsTopicArn ∧
    (ReceiveParameters gwBadCreds true {} [⟨"a\n", true⟩, ⟨"s\n", true⟩, ⟨"r\n", true⟩]).1.CloudTrail =
      ({} : AWSInput).CloudTrail ∧
    (ReceiveParameters gwBadCreds true {} [⟨"a\n", true⟩, ⟨"s\n", true⟩, ⟨"r\n", true⟩]).1.IsKeyless =
      ({} : AWSInput).IsKeyless ∧
    (ReceiveParameters gwBadCreds true {} [⟨"a\n", true⟩, ⟨"s\n", true⟩, ⟨"r\n", true⟩]).1.PublicKey =
      ({} : AWSInput).PublicKey ∧
    (ReceiveParameters gwBadCreds true {} [⟨"a\n", true⟩, ⟨"s\n", true⟩, ⟨"r\n", true⟩]).1.PrivateKey =
      ({} : AWSInput).PrivateKey :=
  invalid_credentials_fail_fast gwBadCreds true {} ⟨"a\n", true⟩ ⟨"s\n", true⟩ ⟨"r\n", true⟩ []
    (by decide) (by decide) (by decide) (by decide) (by decide) (by decide) (by decide)

end FunctionClarity
